import Mathlib

/-!
# Verification of jpggps2kml against its specification

A shallow embedding of the core logic of `jpggps2kml/jpggps2kml.py`:
the sorted interval index (`sorteditems`), the EXIF metadata
normalisation and inclusion tests used by `makekml`, the per-day and
GPX track assembly, the output overwrite gate, the clock-offset
estimator (`findoffset`), and the colour-palette cycling.

Python integers and timestamps are modelled as `Int`/`Nat`; Python
dynamic failures (AttributeError on `None`, UnboundLocalError,
TypeError, KeyError, `sys.exit`) are modelled with `Except`.
-/

/-- Node of the linked list kept by `sorteditems` (source class
`beginenditem`): fields `begin`, `end`, `item`; the `next` pointer is
represented by the tail of a `List beginenditem`.  `begin`/`end` are
modelled as `Int` (any totally ordered type works identically) and the
payload as `Nat`. -/
structure beginenditem where
  ibegin : Int
  iend : Int
  item : Nat
  deriving DecidableEq, Repr

/-- The test at the end of `sorteditems.find` (source line 114):
`if bgi.begin <= here and bgi.end <= here: return bgi.item else None`.
Note the source compares `bgi.end <= here`, not `here <= bgi.end`. -/
def findCheck (bgi : beginenditem) (here : Int) : Option Nat :=
  if bgi.ibegin ≤ here ∧ bgi.iend ≤ here then some bgi.item else none

/-- The scan loop of `sorteditems.find` (source lines 109-113): walk
forward while `bgi.end < here`, stopping at the last node if no
further node exists, then apply `findCheck`. -/
def findLoop (bgi : beginenditem) (rest : List beginenditem) (here : Int) : Option Nat :=
  if bgi.iend < here then
    match rest with
    | next :: rest2 => findLoop next rest2 here
    | [] => findCheck bgi here
  else
    findCheck bgi here

/-- `sorteditems.find` (source lines 104-117).  The method starts with
`bgi = self.first` and immediately evaluates `bgi.end`; on an empty
index `self.first` is `None`, so the method raises AttributeError,
modelled as `Except.error ()`. -/
def find (l : List beginenditem) (here : Int) : Except Unit (Option Nat) :=
  match l with
  | [] => Except.error ()
  | bgi :: rest => Except.ok (findLoop bgi rest here)

/-- The two failure modes of `sorteditems.add`: `overlap` is the
`sys.exit(-1)` taken when `end > bgi.next.begin` (source lines 83-92);
`nameError` is the UnboundLocalError raised in the final `else` branch
(source line 100), where `beginenditem(begin, end, bginew, None)` reads
the local variable `bginew` before any assignment to it. -/
inductive AddErr where
  | overlap
  | nameError
  deriving DecidableEq, Repr

/-- The `while bgi:` loop of `sorteditems.add` (source lines 77-102),
acting on the node `bgi` whose successors are `rest`; returns the
updated list from `bgi` onwards.
* `begin > bgi.end` with a successor present: advance to the successor;
* otherwise with a successor present: error out if `end` exceeds the
  successor's `begin`, else splice the new node in after `bgi`;
* no successor: the source's `else` branch always raises
  UnboundLocalError on `bginew` before anything is appended. -/
def addLoop (bgi : beginenditem) (rest : List beginenditem) (b e : Int) (it : Nat) :
    Except AddErr (List beginenditem) :=
  match rest with
  | next :: rest2 =>
    if b > bgi.iend then
      match addLoop next rest2 b e it with
      | Except.error err => Except.error err
      | Except.ok tl => Except.ok (bgi :: tl)
    else if e > next.ibegin then
      Except.error AddErr.overlap
    else
      Except.ok (bgi :: ⟨b, e, it⟩ :: next :: rest2)
  | [] => Except.error AddErr.nameError

/-- `sorteditems.add` (source lines 71-102).  When the list is empty
(`self.first` is `None`) the `while` loop body never runs and the
method returns with `self.first` still `None`: the item is silently not
inserted. -/
def add (l : List beginenditem) (b e : Int) (it : Nat) : Except AddErr (List beginenditem) :=
  match l with
  | [] => Except.ok []
  | bgi :: rest => addLoop bgi rest b e it

/-- C1: Interval index point lookup.  The claim fails on the code:
(1) on an empty index `find` dereferences `None` (`bgi.end` with
`bgi = None`) instead of returning "not found"; (2) for the index
[(0,10,payload 1)] the point 5 lies inside the interval but `find`
returns `None` ("not found"), because the final test reads
`bgi.end <= here` instead of `here <= bgi.end`; (3) the point 20 lies
outside every interval yet `find` returns payload 1.  The docstring of
`find` ("Return the corresponding item if begin <= here <= end else
None") states the claimed behaviour, so this is a code bug. -/
theorem find_contract_violations :
    find ([] : List beginenditem) 5 = Except.error () ∧
    find [⟨0, 10, 1⟩] 5 = Except.ok none ∧
    find [⟨0, 10, 1⟩] 20 = Except.ok (some 1) :=
  ⟨rfl, rfl, rfl⟩

/-- C2: Interval index insertion.  The claim fails on the code:
(1) adding (1,2) to an empty index leaves the index empty — the
`while bgi:` loop never runs and `self.first` is never assigned, so
nothing is inserted; (2) appending (20,30) after the single interval
(0,10) reaches the branch `beginenditem(begin, end, bginew, None)`
which raises UnboundLocalError (`bginew` is read before assignment);
(3) inserting (5,15) into [(0,10),(20,30)] succeeds even though
(5,15) overlaps (0,10): the overlap test only compares against the
successor's `begin`, never against the current node's interval.
The docstring ("The new item will be initialized and inserted into the
correct place.  It is an error if the open interval (begin, end)
overlaps an existing interval") states the claimed behaviour, so this
is a code bug. -/
theorem add_contract_violations :
    add ([] : List beginenditem) 1 2 7 = Except.ok [] ∧
    add [⟨0, 10, 1⟩] 20 30 7 = Except.error AddErr.nameError ∧
    add [⟨0, 10, 1⟩, ⟨20, 30, 2⟩] 5 15 7 =
      Except.ok [⟨0, 10, 1⟩, ⟨5, 15, 7⟩, ⟨20, 30, 2⟩] :=
  ⟨rfl, rfl, rfl⟩

/-- The output gate at the end of `jpggps2kml.makekml` (source lines
857-870).  With `--out` supplied, the destination is written when
`not os.path.isfile(kmlpath) or 'update' not in args or not
args['update']`; otherwise the run exits with
"ERROR: use --update to overwrite".  `fileExists` models
`os.path.isfile(kmlpath)`, `updateKeyPresent` models
`'update' in args`, and `updateTruthy` models `bool(args['update'])`.
Returns `true` when the destination file is written. -/
def makekmlWrites (fileExists updateKeyPresent updateTruthy : Bool) : Bool :=
  !fileExists || !updateKeyPresent || !updateTruthy

/-- C3: Output overwrite protection.  The claim fails on the code: the
condition is inverted.  When the destination exists and update was NOT
requested, `makekml` writes (overwrites) the file; when the
destination exists and update WAS requested, it refuses and exits with
the message "use --update to overwrite" — contradicting its own error
message, so this is a code bug. -/
theorem makekml_overwrite_gate_inverted :
    makekmlWrites true false false = true ∧
    makekmlWrites true true true = false :=
  ⟨rfl, rfl⟩

/-- The outlier test of `findoffset` (source line 1016):
`if offset_secs <= -86400 or offset_secs > 86400:` warn and skip,
else count the offset in the histogram.  Returns `true` when the
offset is excluded. -/
def offsetIsOutlier (offset_secs : Int) : Bool :=
  offset_secs ≤ -86400 || 86400 < offset_secs

/-- C7 counterexample: the claim says an offset is excluded exactly
when its absolute value exceeds 86400 seconds, so -86400 (absolute
value exactly 86400) should be counted; the code excludes it, because
the lower bound uses `<=` while the upper bound uses `>`. -/
theorem outlier_boundary_counterexample :
    offsetIsOutlier (-86400) = true ∧ (-86400 : Int).natAbs ≤ 86400 := by
  constructor
  · rfl
  · decide

/-- C7 amended: an offset is excluded from the histogram exactly when
`offset <= -86400 or offset > 86400`, i.e. when its absolute value
exceeds 86400 seconds or it equals -86400 exactly; in particular
+86400 is counted while -86400 is excluded. -/
theorem outlier_test_characterisation (s : Int) :
    offsetIsOutlier s = true ↔ (86400 < s.natAbs ∨ s = -86400) := by
  simp only [offsetIsOutlier, Bool.or_eq_true, decide_eq_true_eq]
  omega

/-- The fixed line-colour palette of `makeKmlDoc` (source lines
623-628): six (normal colour, normal width, highlight colour,
highlight width) entries. -/
def colourSet : List (String × Nat × String × Nat) :=
  [("7fff0000", 6, "ffff0000", 8),
   ("7f00ff00", 6, "ff00ff00", 8),
   ("7f0000ff", 6, "ff0000ff", 8),
   ("7fffff00", 6, "ffffff00", 8),
   ("7fff00ff", 6, "ffff00ff", 8),
   ("7f00ffff", 6, "ff00ffff", 8)]

/-- `self.colourSetLen = len(colourSet)` (source line 629). -/
def colourSetLen : Nat := colourSet.length

/-- The cursor advance performed each time a new track placemark is
created: `self.colourIndex = (self.colourIndex + 1) % self.colourSetLen`
(source lines 402 and 774). -/
def nextColourIndex (i : Nat) : Nat := (i + 1) % colourSetLen

/-- Iterated cursor advance: the value of `self.colourIndex` after `n`
new tracks have been created starting from `start`. -/
def slotsFrom (start : Nat) : Nat → Nat
  | 0 => start
  | n + 1 => nextColourIndex (slotsFrom start n)

/-- The colour slot used by the k-th newly created track (1-based) in a
run whose cursor starts at `start`: each track uses the current cursor
and then advances it (source lines 401-402 and 766-774). -/
def slotOfTrack (start k : Nat) : Nat := slotsFrom start (k - 1)

/-- A child argument passed to a call of an lxml `ElementMaker`
factory such as pykml's `KML`: the maker accepts text, attribute
dicts and existing elements; any other object — such as the open file
object passed at source line 587 — raises TypeError. -/
inductive EMChild where
  | text : String → EMChild
  | attrs : List (String × String) → EMChild
  | element : String → EMChild
  | fileObject : EMChild
  deriving DecidableEq, Repr

/-- `KML.<tag>(children...)`: build element `tag` from the children,
raising TypeError (modelled as `Except.error ()`) when any child is of
an unsupported type. -/
def elementMakerCall (tag : String) (children : List EMChild) :
    Except Unit (String × List EMChild) :=
  if children.any (fun c => match c with | EMChild.fileObject => true | _ => false) then
    Except.error ()
  else
    Except.ok (tag, children)

/-- The update branch of `makeKmlDoc` (source lines 583-596), given
the count of track placemarks the existing document holds and the
current value of the `self.colourSetLen` attribute (`none` when the
attribute has never been assigned).  `doc = KML.parse(f)` at line 587
calls the `KML` element factory — `KML.parse` builds a `<parse>`
element — with the open file object as its child, a TypeError, so the
branch faults before reaching the cursor assignment of lines 593-596;
were it reached, reading `self.colourSetLen` would raise
AttributeError, because that attribute is assigned only in the
fresh-document branch (line 629), which update mode skips.  Returns
the recovered palette cursor
`(len(trackfolder.findall(KML.PlaceMark)) - 1) % self.colourSetLen`
(Python `%` agrees with `Int.emod` for a positive divisor) — which is
therefore never produced. -/
def updateBranchCursor (ntracks : Nat) (colourSetLenAttr : Option Nat) : Except Unit Int :=
  match elementMakerCall "parse" [EMChild.fileObject] with
  | Except.error e => Except.error e
  | Except.ok _ =>
    match colourSetLenAttr with
    | none => Except.error ()
    | some n => Except.ok (((ntracks : Int) - 1) % (n : Int))

theorem slotsFrom_zero (n : Nat) : slotsFrom 0 n = n % colourSetLen := by
  have h6 : colourSetLen = 6 := rfl
  induction n with
  | zero => rfl
  | succ n ih =>
    simp only [slotsFrom, nextColourIndex, ih, h6]
    omega

/-- C8 counterexample: the claim says that in update mode the palette
cursor starts at (existing track placemark count) mod N.  With one
existing track placemark the update branch produces no cursor at all
— it faults at `KML.parse(f)` (line 587) before lines 593-596 run —
so in particular the cursor is not the claimed 1 mod 6 = 1. -/
theorem update_cursor_counterexample :
    updateBranchCursor 1 none = Except.error () ∧
    (1 : Nat) % colourSetLen = 1 ∧
    ∀ v : Int, updateBranchCursor 1 none ≠ Except.ok v := by
  refine ⟨rfl, rfl, ?_⟩
  intro v h
  rw [show updateBranchCursor 1 none = Except.error () from rfl] at h
  simp at h

/-- C8 amended: in a fresh build the k-th newly created track is
assigned colour slot (k-1) mod N (so the (N+1)-th track repeats the
1st); update mode never recovers a palette cursor: whatever the count
of existing track placemarks, `makeKmlDoc` faults at `KML.parse(f)`
(TypeError: the element factory is called with an open file object)
before the cursor assignment — which would itself raise
AttributeError, `self.colourSetLen` being assigned only in the
fresh-document branch — so no update-mode colour continuation exists
in the program. -/
theorem colour_cycle_spec (k ntracks : Nat) :
    slotOfTrack 0 k = (k - 1) % colourSetLen ∧
    slotOfTrack 0 (colourSetLen + 1) = slotOfTrack 0 1 ∧
    updateBranchCursor ntracks none = Except.error () := by
  refine ⟨by simp [slotOfTrack, slotsFrom_zero], by decide, rfl⟩

/-- The EXIF tags requested by `makekml`/`appendTrackPlacemarks`
(source lines 666-673 and 820-827), with raw coordinate values
modelled as `Int`. -/
structure Tags where
  dateTimeOriginal : Option String
  gpsStatus : Option String
  gpsMeasureMode : Option String
  gpsLongitude : Option Int
  gpsLongitudeRef : Option String
  gpsLatitude : Option Int
  gpsLatitudeRef : Option String
  gpsAltitude : Option Int
  deriving DecidableEq, Repr

/-- Python's `\s` character class (space, tab, newline, carriage
return, vertical tab, form feed). -/
def pyIsSpace (c : Char) : Bool :=
  c = ' ' || c = '\t' || c = '\n' || c = '\r' || c = '\x0b' || c = '\x0c'

/-- Greedy character-class matcher: consume a maximal run of
characters satisfying `p`; fail if `atLeastOne` is set and the run is
empty (models `\d+`, `\s+`, `\s*`, `[\d.]+`). -/
def pTakeClass (p : Char → Bool) (atLeastOne : Bool) (cs : List Char) :
    Option (List Char × List Char) :=
  if atLeastOne && (cs.takeWhile p).isEmpty then none
  else some (cs.takeWhile p, cs.dropWhile p)

/-- Match one literal character. -/
def pChar (c : Char) : List Char → Option (List Char)
  | [] => none
  | x :: rest => if x = c then some rest else none

/-- The `DateTimeOriginal` pattern of source lines 524-528:
`re.match` of `\s*(\d+:\d+:\d+)\s+(\d+:\d+:[\d.]+)\s*` followed by
`re.sub(r':', '-', m.group(1))`.  Every character class in the pattern
is disjoint from its successor, so the greedy left-to-right parse is
exactly the regex match.  Returns (datestr with colons rewritten to
hyphens, timestr), or `none` when the match fails — in which case the
source calls `m.group(1)` on `None` and raises AttributeError. -/
def matchDateTimeOriginal (s : String) : Option (String × String) := do
  let (_, cs) ← pTakeClass pyIsSpace false s.data
  let (d1, cs) ← pTakeClass Char.isDigit true cs
  let cs ← pChar ':' cs
  let (d2, cs) ← pTakeClass Char.isDigit true cs
  let cs ← pChar ':' cs
  let (d3, cs) ← pTakeClass Char.isDigit true cs
  let (_, cs) ← pTakeClass pyIsSpace true cs
  let (t1, cs) ← pTakeClass Char.isDigit true cs
  let cs ← pChar ':' cs
  let (t2, cs) ← pTakeClass Char.isDigit true cs
  let cs ← pChar ':' cs
  let (t3, _) ← pTakeClass (fun c => c.isDigit || c = '.') true cs
  some (String.mk (d1 ++ '-' :: d2 ++ '-' :: d3),
        String.mk (t1 ++ ':' :: t2 ++ ':' :: t3))

/-- Latitude normalisation (source lines 506-511 and 699-704): negate
the raw value exactly when the `GPSLatitudeRef` tag is present and
equals "S"; `none` when `GPSLatitude` is absent. -/
def normLat (lat : Option Int) (ref : Option String) : Option Int :=
  match lat with
  | none => none
  | some v => if ref = some "S" then some (-v) else some v

/-- Longitude normalisation (source lines 513-518 and 706-711):
negate exactly when `GPSLongitudeRef` is present and equals "W". -/
def normLon (lon : Option Int) (ref : Option String) : Option Int :=
  match lon with
  | none => none
  | some v => if ref = some "W" then some (-v) else some v

/-- Python truthiness of the `lat`/`lon` locals in the inclusion test
`if datestr and timestr and lat and lon:`: `None` and `0` are falsy. -/
def truthyCoord : Option Int → Bool
  | none => false
  | some v => v != 0

/-- The per-photo inclusion decision of
`read_image_placemarks_from_jpeg` (source lines 502-541): normalise
latitude and longitude, parse `DateTimeOriginal` (AttributeError —
modelled as `Except.error ()` — when the tag is present but does not
match the pattern), then test `datestr and timestr and lat and lon`.
Returns whether a placemark is appended for the photo. -/
def imageInclusion (t : Tags) : Except Unit Bool :=
  match t.dateTimeOriginal with
  | none => Except.ok false
  | some s =>
    match matchDateTimeOriginal s with
    | none => Except.error ()
    | some (d, tm) =>
      Except.ok (!d.isEmpty && !tm.isEmpty &&
        truthyCoord (normLat t.gpsLatitude t.gpsLatitudeRef) &&
        truthyCoord (normLon t.gpsLongitude t.gpsLongitudeRef))

/-- The per-photo inclusion decision of `appendTrackPlacemarks`
(source lines 693-732): the outer guard `if 'EXIF:GPSLongitude' in
tags:` skips the photo entirely, and the guarded body repeats lines
502-541 of `read_image_placemarks_from_jpeg` verbatim, ending in the
same `if datestr and timestr and lat and lon:` test, so it is
expressed through `imageInclusion`.  Returns whether the photo enters
the `places` dictionary (and hence the day's track and image
placemarks). -/
def trackInclusion (t : Tags) : Except Unit Bool :=
  match t.gpsLongitude with
  | none => Except.ok false
  | some _ => imageInclusion t

/-- A photo with complete GPS coordinates and timestamp but with
neither a `GPSStatus` nor a `GPSMeasureMode` tag. -/
def tagsNoFix : Tags :=
  { dateTimeOriginal := some "2024:01:02 03:04:05"
    gpsStatus := none
    gpsMeasureMode := none
    gpsLongitude := some 20
    gpsLongitudeRef := some "E"
    gpsLatitude := some 10
    gpsLatitudeRef := some "N"
    gpsAltitude := some 5 }

/-- C4 counterexample: the claim says a photo lacking a fix-status tag
equal to "active" (or lacking a fix-quality tag above 1-D mode) is
excluded.  `tagsNoFix` has neither tag, yet both inclusion tests
accept it: the `makekml` path requests `EXIF:GPSStatus` and
`EXIF:GPSMeasureMode` from the extractor but never reads them. -/
theorem fix_gating_counterexample :
    tagsNoFix.gpsStatus = none ∧ tagsNoFix.gpsMeasureMode = none ∧
    imageInclusion tagsNoFix = Except.ok true ∧
    trackInclusion tagsNoFix = Except.ok true :=
  ⟨rfl, rfl, rfl, rfl⟩

/-- C4 amended: the KML build's inclusion decisions are entirely
independent of the `GPSStatus` and `GPSMeasureMode` tags — a photo is
included exactly when `DateTimeOriginal` parses and the normalised
latitude and longitude are present and nonzero, whatever the
fix-status and fix-quality tags hold (they are fetched but never
consulted; only `findoffset` reads `GPSStatus`). -/
theorem fix_tags_never_consulted (t : Tags) (s m : Option String) :
    imageInclusion { t with gpsStatus := s, gpsMeasureMode := m } = imageInclusion t ∧
    trackInclusion { t with gpsStatus := s, gpsMeasureMode := m } = trackInclusion t := by
  cases t
  exact ⟨rfl, rfl⟩

/-- C9 counterexample: the claim says any photo with non-negative raw
latitude and hemisphere reference "S" gets a negative normalised
latitude; at raw latitude 0 the code yields -0 = 0, which is not
negative. -/
theorem hemisphere_zero_counterexample :
    normLat (some 0) (some "S") = some 0 ∧
    ¬ ∃ w, normLat (some 0) (some "S") = some w ∧ w < 0 := by
  refine ⟨rfl, ?_⟩
  rintro ⟨w, hw, hlt⟩
  have h0 : (some (0 : Int)) = some w := hw
  have : w = 0 := (Option.some_inj.mp h0).symm
  omega

/-- C9 amended: normalisation negates the raw value exactly under
reference "S" (latitude) / "W" (longitude) and leaves it unchanged
otherwise; hence a strictly positive raw value becomes negative under
"S"/"W", and a non-negative raw value stays non-negative under
"N"/"E".  Raw value 0 normalises to 0 under every reference. -/
theorem hemisphere_sign_spec (v : Int) (r : Option String) (hv : 0 ≤ v) :
    normLat (some v) r = some (if r = some "S" then -v else v) ∧
    normLon (some v) r = some (if r = some "W" then -v else v) ∧
    (0 < v → r = some "S" → ∃ w, normLat (some v) r = some w ∧ w < 0) ∧
    (0 < v → r = some "W" → ∃ w, normLon (some v) r = some w ∧ w < 0) ∧
    (r = some "N" → normLat (some v) r = some v ∧ 0 ≤ v) ∧
    (r = some "E" → normLon (some v) r = some v ∧ 0 ≤ v) := by
  refine ⟨?_, ?_, ?_, ?_, ?_, ?_⟩
  · by_cases h : r = some "S" <;> simp [normLat, h]
  · by_cases h : r = some "W" <;> simp [normLon, h]
  · intro hv0 hS
    exact ⟨-v, by simp [normLat, hS], by omega⟩
  · intro hv0 hW
    exact ⟨-v, by simp [normLon, hW], by omega⟩
  · intro hN
    subst hN
    exact ⟨rfl, hv⟩
  · intro hE
    subst hE
    exact ⟨rfl, hv⟩

/-- Witness for `hemisphere_sign_spec` at raw value 3, reference "S". -/
theorem hemisphere_sign_spec_witness :
    normLat (some 3) (some "S") = some (if (some "S" : Option String) = some "S" then -3 else 3) ∧
    normLon (some 3) (some "S") = some (if (some "S" : Option String) = some "W" then -3 else 3) ∧
    (0 < (3 : Int) → (some "S" : Option String) = some "S" →
      ∃ w, normLat (some 3) (some "S") = some w ∧ w < 0) ∧
    (0 < (3 : Int) → (some "S" : Option String) = some "W" →
      ∃ w, normLon (some 3) (some "S") = some w ∧ w < 0) ∧
    ((some "S" : Option String) = some "N" → normLat (some 3) (some "S") = some 3 ∧ 0 ≤ (3 : Int)) ∧
    ((some "S" : Option String) = some "E" → normLon (some 3) (some "S") = some 3 ∧ 0 ≤ (3 : Int)) :=
  hemisphere_sign_spec 3 (some "S") (by decide)

/-- C10: a photo whose normalised latitude or longitude is exactly 0
is never included, by either inclusion path: the test
`if datestr and timestr and lat and lon:` relies on Python truthiness,
under which `0` is falsy. -/
theorem zero_coordinate_excluded (t : Tags)
    (h : normLat t.gpsLatitude t.gpsLatitudeRef = some 0 ∨
         normLon t.gpsLongitude t.gpsLongitudeRef = some 0) :
    (∀ b, imageInclusion t = Except.ok b → b = false) ∧
    (∀ b, trackInclusion t = Except.ok b → b = false) := by
  have himg : ∀ b, imageInclusion t = Except.ok b → b = false := by
    intro b hb
    rcases hdt : t.dateTimeOriginal with _ | s
    · simp only [imageInclusion, hdt, Except.ok.injEq] at hb
      exact hb.symm
    · rcases hm : matchDateTimeOriginal s with _ | ⟨d, tm⟩
      · simp only [imageInclusion, hdt, hm, reduceCtorEq] at hb
      · simp only [imageInclusion, hdt, hm, Except.ok.injEq] at hb
        subst hb
        rcases h with h | h <;> rw [h] <;> simp [truthyCoord]
  refine ⟨himg, ?_⟩
  intro b hb
  rcases hlon : t.gpsLongitude with _ | v
  · simp only [trackInclusion, hlon, Except.ok.injEq] at hb
    exact hb.symm
  · simp only [trackInclusion, hlon] at hb
    exact himg b hb

/-- A photo with all tags present whose raw (and normalised) latitude
is exactly 0. -/
def tagsZeroLat : Tags :=
  { dateTimeOriginal := some "2024:01:02 03:04:05"
    gpsStatus := some "A"
    gpsMeasureMode := some "3"
    gpsLongitude := some 20
    gpsLongitudeRef := some "E"
    gpsLatitude := some 0
    gpsLatitudeRef := some "N"
    gpsAltitude := some 5 }

/-- Witness for `zero_coordinate_excluded` at `tagsZeroLat`. -/
theorem zero_coordinate_excluded_witness :
    (∀ b, imageInclusion tagsZeroLat = Except.ok b → b = false) ∧
    (∀ b, trackInclusion tagsZeroLat = Except.ok b → b = false) :=
  zero_coordinate_excluded tagsZeroLat (Or.inl rfl)

/-- A GPX track point as read by `read_track_from_gpx` (source lines
420-424): `lat`/`lon` attributes and `ele`/`time` child texts, all
strings. -/
structure TrkPt where
  lat : String
  lon : String
  ele : String
  time : String
  deriving DecidableEq, Repr

/-- A child element of a `GX.Track`: a `when` time marker or a `coord`
coordinate marker. -/
inductive TrackEl where
  | whenEl : String → TrackEl
  | coordEl : String → TrackEl
  deriving DecidableEq, Repr

/-- `GX.when(time)` for one track point (source line 426). -/
def whenOf (p : TrkPt) : TrackEl := TrackEl.whenEl p.time

/-- `GX.coord('{0} {1} {2}'.format(lon, lat, alt))` for one track
point (source lines 427-429). -/
def coordOf (p : TrkPt) : TrackEl :=
  TrackEl.coordEl (p.lon ++ " " ++ p.lat ++ " " ++ p.ele)

/-- The point loop of `read_track_from_gpx` (source lines 420-429):
one pass over the segment's points appending to `whenlist` and
`coordlist` in step. -/
def buildTrackLists (pts : List TrkPt) : List TrackEl × List TrackEl :=
  pts.foldl (fun acc p => (acc.1 ++ [whenOf p], acc.2 ++ [coordOf p])) ([], [])

/-- The `GX.Track` contents for one GPX `trkseg` (source lines
430-433): all of `whenlist` appended first, then all of `coordlist`. -/
def buildKmlTrack (pts : List TrkPt) : List TrackEl :=
  (buildTrackLists pts).1 ++ (buildTrackLists pts).2

theorem buildTrackLists_go (pts : List TrkPt) :
    ∀ a b, pts.foldl (fun acc p => (acc.1 ++ [whenOf p], acc.2 ++ [coordOf p])) (a, b) =
      (a ++ pts.map whenOf, b ++ pts.map coordOf) := by
  induction pts with
  | nil => intro a b; simp
  | cons p rest ih =>
    intro a b
    simp [List.foldl_cons, ih]

/-- Python `str.join`: `sep.join(iterable)` takes exactly one
positional argument, either a list of strings or a string (iterated
character by character); any other call raises TypeError, modelled as
`Except.error ()`. -/
inductive PyVal where
  | str : String → PyVal
  | strlist : List String → PyVal
  deriving DecidableEq, Repr

def pyJoin (sep : String) (args : List PyVal) : Except Unit String :=
  match args with
  | [PyVal.str s] => Except.ok (String.intercalate sep (s.data.map Char.toString))
  | [PyVal.strlist l] => Except.ok (String.intercalate sep l)
  | _ => Except.error ()

/-- The `'time'` entry of the per-photo metadata record in
`appendTrackPlacemarks` (source line 744):
`GX.when('T'.join(datestr, timestr))` — `join` is called with TWO
positional arguments, which raises TypeError in Python, so the
photo-derived track build faults on its first qualifying photo before
any `when`/`coord` pair is assembled. -/
def jpegMetaTime (datestr timestr : String) : Except Unit String :=
  pyJoin "T" [PyVal.str datestr, PyVal.str timestr]

/-- C5: Track marker alignment.  The GPX-derived half of the claim
holds: for every segment, `buildKmlTrack` is exactly the `when`
markers of the points in order followed by their `coord` markers in
the same order, so the counts match and the i-th `when` and i-th
`coord` come from the same point.  The photo-derived half fails on the
code: `appendTrackPlacemarks` crashes on its first qualifying photo —
`'T'.join(datestr, timestr)` (line 744) is a TypeError — and even past
that, the `coord` loop (line 784) reads `jpegmeta[tf]` from the stale
per-photo variable `jpegmeta` instead of `places[datestr][tf]`, a
KeyError; the adjacent `when` loop shows the intended parallel reads,
so this is a code bug. -/
theorem track_alignment_and_photo_fault :
    (∀ pts : List TrkPt,
      (buildKmlTrack pts).take pts.length = pts.map whenOf ∧
      (buildKmlTrack pts).drop pts.length = pts.map coordOf ∧
      (buildKmlTrack pts).length = 2 * pts.length) ∧
    jpegMetaTime "2024-01-02" "03:04:05" = Except.error () := by
  constructor
  · intro pts
    have hb : buildKmlTrack pts = pts.map whenOf ++ pts.map coordOf := by
      simp [buildKmlTrack, buildTrackLists, buildTrackLists_go]
    have hlen : (pts.map whenOf).length = pts.length := List.length_map _ _
    refine ⟨?_, ?_, ?_⟩
    · rw [hb, ← hlen, List.take_left]
    · rw [hb, ← hlen, List.drop_left]
    · rw [hb]
      simp
      omega
  · rfl

/-- The mode-search loop of `findoffset` (source lines 1039-1044):
scan the ascending offsets, replacing the running mode only on a
strictly greater count. -/
def voteLoop (f : Int → Nat) : List Int → Int → Nat → Int × Nat
  | [], mode, modeNum => (mode, modeNum)
  | o :: rest, mode, modeNum =>
    if modeNum < f o then voteLoop f rest o (f o) else voteLoop f rest mode modeNum

/-- The reporting stage of `findoffset` (source lines 1031-1046),
taking the offset histogram as its distinct key list `keys` and count
function `f`.  With exactly one key, only `most negative` is printed
(no mode); otherwise the keys are sorted ascending, `most_negative`
is the first, and the mode loop runs over all of them starting from
`most_negative`.  Returns (most-negative offset, reported mode if
any); `offsets[0]` on an empty histogram is an IndexError, modelled
as `Except.error ()` (the single-key `match` default is unreachable:
a list of length 1 is `[k]`). -/
def voteReport (keys : List Int) (f : Int → Nat) : Except Unit (Int × Option Int) :=
  if keys.length = 1 then
    match keys with
    | [k] => Except.ok (k, none)
    | _ => Except.error ()
  else
    match List.insertionSort (· ≤ ·) keys with
    | [] => Except.error ()
    | k :: rest => Except.ok (k, some (voteLoop f (k :: rest) k (f k)).1)

theorem voteLoop_correct (f : Int → Nat) :
    ∀ (l : List Int) (m : Int), l.Sorted (· ≤ ·) → (∀ x ∈ l, m ≤ x) →
      ((voteLoop f l m (f m)).1 = m ∧ ∀ x ∈ l, f x ≤ f m) ∨
      ((voteLoop f l m (f m)).1 ∈ l ∧
       f m < f (voteLoop f l m (f m)).1 ∧
       (∀ x ∈ l, f x ≤ f (voteLoop f l m (f m)).1) ∧
       (∀ x ∈ l, f x = f (voteLoop f l m (f m)).1 → (voteLoop f l m (f m)).1 ≤ x)) := by
  intro l
  induction l with
  | nil =>
    intro m _ _
    left
    exact ⟨rfl, by simp⟩
  | cons o rest ih =>
    intro m hs hb
    have hso : rest.Sorted (· ≤ ·) := hs.of_cons
    have hbo : ∀ x ∈ rest, o ≤ x := (List.sorted_cons.mp hs).1
    by_cases hcmp : f m < f o
    · have hred : voteLoop f (o :: rest) m (f m) = voteLoop f rest o (f o) := by
        simp [voteLoop, hcmp]
      rw [hred]
      rcases ih o hso hbo with ⟨h1, hall⟩ | ⟨h1, hlt, hall, htie⟩
      · right
        rw [h1]
        refine ⟨List.mem_cons_self o rest, hcmp, ?_, ?_⟩
        · intro x hx
          rcases List.mem_cons.mp hx with rfl | hx
          · exact le_refl _
          · exact hall x hx
        · intro x hx _
          rcases List.mem_cons.mp hx with rfl | hx
          · exact le_refl _
          · exact hbo x hx
      · right
        refine ⟨List.mem_cons_of_mem o h1, lt_trans hcmp hlt, ?_, ?_⟩
        · intro x hx
          rcases List.mem_cons.mp hx with rfl | hx
          · exact le_of_lt hlt
          · exact hall x hx
        · intro x hx hfx
          rcases List.mem_cons.mp hx with rfl | hx
          · omega
          · exact htie x hx hfx
    · have hred : voteLoop f (o :: rest) m (f m) = voteLoop f rest m (f m) := by
        simp [voteLoop, hcmp]
      rw [hred]
      have hfo : f o ≤ f m := Nat.le_of_not_lt hcmp
      have hbm : ∀ x ∈ rest, m ≤ x := fun x hx => hb x (List.mem_cons_of_mem o hx)
      rcases ih m hso hbm with ⟨h1, hall⟩ | ⟨h1, hlt, hall, htie⟩
      · left
        refine ⟨h1, ?_⟩
        intro x hx
        rcases List.mem_cons.mp hx with rfl | hx
        · exact hfo
        · exact hall x hx
      · right
        refine ⟨List.mem_cons_of_mem o h1, hlt, ?_, ?_⟩
        · intro x hx
          rcases List.mem_cons.mp hx with rfl | hx
          · exact le_trans hfo (le_of_lt hlt)
          · exact hall x hx
        · intro x hx hfx
          rcases List.mem_cons.mp hx with rfl | hx
          · omega
          · exact htie x hx hfx

/-- C6 counterexample: the claim says every non-empty histogram gets
both a most-negative and a modal offset reported.  A histogram with a
single distinct offset (e.g. {100: 3}) takes the
`len(offset_distribution) == 1` branch and prints only
`most negative`; no mode is reported. -/
theorem vote_report_singleton_no_mode :
    voteReport [100] (fun _ => 3) = Except.ok (100, none) ∧
    ∀ m : Int, voteReport [100] (fun _ => 3) ≠ Except.ok (100, some m) := by
  refine ⟨rfl, ?_⟩
  intro m h
  rw [show voteReport [100] (fun _ => 3) = Except.ok (100, none) from rfl] at h
  simp at h

/-- C6 amended: when the histogram has at least two distinct offsets,
`findoffset` reports both the most negative offset (the minimum) and
the modal offset, resolving frequency ties to the smallest offset in
ascending numeric order; a histogram with exactly one distinct offset
reports only that offset as most negative, with no mode.  (The spec's
example [100, 100, 100, -50] has two distinct offsets and is covered:
most negative -50, mode 100.) -/
theorem vote_report_spec (keys : List Int) (f : Int → Nat) (h2 : 2 ≤ keys.length) :
    ∃ mn m, voteReport keys f = Except.ok (mn, some m) ∧
      mn ∈ keys ∧ (∀ x ∈ keys, mn ≤ x) ∧
      m ∈ keys ∧ (∀ x ∈ keys, f x ≤ f m) ∧ (∀ x ∈ keys, f x = f m → m ≤ x) := by
  have hlen1 : ¬ keys.length = 1 := by omega
  have hperm := List.perm_insertionSort (· ≤ ·) keys
  have hsorted := List.sorted_insertionSort (· ≤ ·) keys
  cases hsrt : List.insertionSort (· ≤ ·) keys with
  | nil =>
    exfalso
    have hl := hperm.length_eq
    rw [hsrt] at hl
    simp at hl
    omega
  | cons k rest =>
    rw [hsrt] at hperm hsorted
    have hrep : voteReport keys f =
        Except.ok (k, some (voteLoop f (k :: rest) k (f k)).1) := by
      unfold voteReport
      rw [if_neg hlen1, hsrt]
    have hbk : ∀ x ∈ k :: rest, k ≤ x := by
      intro x hx
      rcases List.mem_cons.mp hx with rfl | hx
      · exact le_refl _
      · exact (List.sorted_cons.mp hsorted).1 x hx
    have hmem : ∀ x, x ∈ k :: rest ↔ x ∈ keys := fun x => hperm.mem_iff
    rcases voteLoop_correct f (k :: rest) k hsorted hbk with ⟨h1, hall⟩ | ⟨h1, _, hall, htie⟩
    · refine ⟨k, k, ?_, ?_, ?_, ?_, ?_, ?_⟩
      · rw [hrep, h1]
      · exact (hmem k).mp (List.mem_cons_self k rest)
      · exact fun x hx => hbk x ((hmem x).mpr hx)
      · exact (hmem k).mp (List.mem_cons_self k rest)
      · exact fun x hx => hall x ((hmem x).mpr hx)
      · exact fun x hx _ => hbk x ((hmem x).mpr hx)
    · refine ⟨k, (voteLoop f (k :: rest) k (f k)).1, hrep, ?_, ?_, ?_, ?_, ?_⟩
      · exact (hmem k).mp (List.mem_cons_self k rest)
      · exact fun x hx => hbk x ((hmem x).mpr hx)
      · exact (hmem _).mp h1
      · exact fun x hx => hall x ((hmem x).mpr hx)
      · exact fun x hx hfx => htie x ((hmem x).mpr hx) hfx

/-- Witness for `vote_report_spec` on the two-key histogram built from
the spec's example offsets [100, 100, 100, -50]. -/
theorem vote_report_spec_witness :
    ∃ mn m, voteReport [100, -50] (fun o => if o = 100 then 3 else 1) =
        Except.ok (mn, some m) ∧
      mn ∈ [(100 : Int), -50] ∧ (∀ x ∈ [(100 : Int), -50], mn ≤ x) ∧
      m ∈ [(100 : Int), -50] ∧
      (∀ x ∈ [(100 : Int), -50],
        (fun o => if o = 100 then 3 else 1) x ≤ (fun o => if o = 100 then 3 else 1) m) ∧
      (∀ x ∈ [(100 : Int), -50],
        (fun o => if o = 100 then 3 else 1) x = (fun o => if o = 100 then 3 else 1) m →
          m ≤ x) :=
  vote_report_spec [100, -50] (fun o => if o = 100 then 3 else 1) (by decide)
